import Mathlib

/-!
Shallow embedding of the persistent per-paper chat-session cache of
`src/assets/js/search.js` (Daarns/Journal-web-scraping).

The embedded functions mirror, statement by statement:
  - `checkExistingChatSession` (search.js:1921-2020): the session resolver;
  - `initChatModal` (search.js:1846-1919): conversation-context construction;
  - the ask-button click handler (search.js:1022-1056): opening a conversation;
  - `sendQuestion` (search.js:1292-1422): the message exchange coordinator;
  - `updateChatSessionInSidebar` (search.js:2423-2461): sidebar reordering.

JavaScript specifics kept in the model:
  - `localStorage.getItem("chatSessions")` may be absent (`null`), may hold a
    JSON object, or may hold a string `JSON.parse` rejects; the code parses it
    with no surrounding try/catch in the resolver and in `initChatModal`, so a
    parse failure propagates as an exception (modelled as `Except.error`).
  - entries under a paper id are arbitrary JS values; the code dispatches on
    truthiness and `typeof` (object with truthy `.sessionId`, legacy bare
    number or string); `SessionEntry` covers these value classes.
  - `localStorage.setItem` can throw (quota); each embedded write takes an
    explicit failure flag, and the surrounding try/catch of the source decides
    where the exception is absorbed.
  - remote calls (`fetch`) either resolve with an ok response, resolve with a
    non-success status, or reject (network error); `FetchResult` has exactly
    these three outcomes and oracles of that type stand for the server.
-/

/-- A JavaScript session-id value: the code stores both strings and
(legacy) numbers, and dispatches on `typeof`. -/
inductive SessId where
  | str (s : String)
  | num (n : Int)
deriving DecidableEq, Repr

/-- JavaScript truthiness of a session-id value: empty string and 0 are falsy. -/
def SessId.truthy : SessId → Bool
  | .str s => s ≠ ""
  | .num n => n ≠ 0

/-- The structured record the code writes into `savedSessions[paperId]`:
`{ sessionId, title, paperId, persistentSession, lastUsed }`. Fields that a
given write site omits (the resolver's put has no `lastUsed`) are `none`. -/
structure StoredRecord where
  sessionId : Option SessId
  title : Option String
  paperId : Option String
  persistentSession : Bool
  lastUsed : Option Nat
deriving DecidableEq, Repr

/-- A value stored under a paper id in the parsed `chatSessions` object.
The source dispatches on truthiness and `typeof`: `null` (typeof object, but
falsy), booleans, legacy bare numbers and strings, and structured records. -/
inductive SessionEntry where
  | snull
  | sbool (b : Bool)
  | snum (n : Int)
  | sstr (s : String)
  | sobj (r : StoredRecord)
deriving DecidableEq, Repr

/-- JavaScript truthiness of a stored entry, as tested by
`if (savedSessions[paperId])`. -/
def SessionEntry.truthy : SessionEntry → Bool
  | .snull => false
  | .sbool b => b
  | .snum n => n ≠ 0
  | .sstr s => s ≠ ""
  | .sobj _ => true

/-- The parsed `chatSessions` object: paper id to stored entry, with the
insertion-ordered unique keys of a JS object literal. -/
abbrev SessionsMap := List (String × SessionEntry)

/-- Property read `savedSessions[paperId]`: first binding for the key. -/
def mapGet (m : SessionsMap) (k : String) : Option SessionEntry :=
  (m.find? (fun kv => kv.1 = k)).map (·.2)

/-- Property write `savedSessions[paperId] = v`: replace in place when the key
exists, append otherwise (JS object key order). -/
def mapSet (m : SessionsMap) (k : String) (v : SessionEntry) : SessionsMap :=
  match m with
  | [] => [(k, v)]
  | (k', v') :: rest =>
      if k' = k then (k, v) :: rest else (k', v') :: mapSet rest k v

/-- Property delete `delete savedSessions[paperId]`. -/
def mapDel (m : SessionsMap) (k : String) : SessionsMap :=
  m.filter (fun kv => kv.1 ≠ k)

/-- The serialized blob under the `"chatSessions"` localStorage key: either a
string `JSON.parse` accepts, carrying a map, or one it rejects. -/
inductive Blob where
  | parsable (m : SessionsMap)
  | unparsable (raw : String)
deriving DecidableEq, Repr

/-- The localStorage slice the subsystem touches: the auth token and the
`chatSessions` blob. `none` models an absent key (`getItem` returns null). -/
structure Storage where
  token : Option String
  chatSessions : Option Blob
deriving DecidableEq, Repr

/-- The source's login test `!!localStorage.getItem("token")` (search.js:22):
absent and empty-string tokens are both falsy. -/
def isUserLoggedIn (st : Storage) : Bool :=
  match st.token with
  | some s => s ≠ ""
  | none => false

/-- The read prelude shared by the resolver and `initChatModal`:
`JSON.parse(localStorage.getItem("chatSessions") || "{}")`. An absent key
parses as the empty object; an unparseable blob throws. -/
def parseBlob : Option Blob → Except Unit SessionsMap
  | none => .ok []
  | some (.parsable m) => .ok m
  | some (.unparsable _) => .error ()

/-- Effective map of a storage state, when its blob parses. -/
def storeMap (st : Storage) : Except Unit SessionsMap :=
  parseBlob st.chatSessions

/-- A successful `localStorage.setItem("chatSessions", JSON.stringify(m))`. -/
def setBlob (st : Storage) (m : SessionsMap) : Storage :=
  { st with chatSessions := some (.parsable m) }

/-- The session-id extraction dispatch used identically at search.js:1861-1877
and search.js:1931-1942: a falsy entry yields nothing; an object entry yields
its `sessionId` when truthy; a bare number or string yields itself. -/
def entrySessionId (e : SessionEntry) : Option SessId :=
  if e.truthy then
    match e with
    | .sobj r =>
        match r.sessionId with
        | some sid => if sid.truthy then some sid else none
        | none => none
    | .snum n => some (.num n)
    | .sstr s => some (.str s)
    | _ => none
  else none

/-- Entry lookup combined with the dispatch: the session id the code extracts
for a paper from a parsed map. -/
def readEntry (e : Option SessionEntry) : Option SessId :=
  match e with
  | some e => entrySessionId e
  | none => none

/-- The Local Session Index read operation as the source performs it: parse
the blob, look up the paper id, run the truthiness dispatch. The parse step
has no try/catch at the read sites, so an unparseable blob is an error. -/
def lsiGet (st : Storage) (paperId : String) : Except Unit (Option SessId) :=
  (storeMap st).map (fun m => readEntry (mapGet m paperId))

/-- JavaScript `a || b` on an optional string (empty string is falsy). -/
def jsOrStr (a : Option String) (b : String) : String :=
  match a with
  | some s => if s = "" then b else s
  | none => b

/-- JavaScript `a || null` on an optional string. -/
def jsOrNull (a : Option String) : Option String :=
  match a with
  | some s => if s = "" then none else some s
  | none => none

/-- Outcome of an awaited `fetch`: ok response, non-success status, or a
rejected promise (network error). -/
inductive FetchResult (α : Type) where
  | ok (body : α)
  | notOk
  | netError
deriving DecidableEq, Repr

/-- Parsed body of `GET /api/ai/paper-chat-session/:paperId`:
`data.session_id` and `data.paper_title`, either possibly absent. -/
structure LookupBody where
  session_id : Option SessId
  paper_title : Option String
deriving DecidableEq, Repr

/-- One remote-authority request issued during resolution. -/
inductive RemoteCall where
  | verifyCall (sid : SessId)
  | lookupCall (pid : String)
deriving DecidableEq, Repr

/-- What a completed resolution hands back: the resolved session id (or none),
the storage as it stands afterwards, and the remote requests issued, in
order. -/
structure ResolveOut where
  result : Option SessId
  store : Storage
  calls : List RemoteCall
deriving DecidableEq, Repr

/-- Priority 2 of `checkExistingChatSession` (search.js:1978-2014): ask the
server for a session by paper id; on an ok body with a truthy `session_id`,
write the structured record (no `lastUsed` field at this site) and return the
id — unless that `setItem` throws (`wfPut`), in which case the catch logs and
the function falls through to `return null` with storage untouched. Any
non-success status, network error, or falsy `session_id` yields none. `st` is
the storage to leave behind, `m` the in-memory map (which already reflects a
priority-1 delete even when persisting that delete failed). -/
def checkExistingPriority2 (st : Storage) (m : SessionsMap) (pre : List RemoteCall)
    (paperId : String) (lookup : String → FetchResult LookupBody) (wfPut : Bool) :
    ResolveOut :=
  let calls := pre ++ [.lookupCall paperId]
  match lookup paperId with
  | .ok body =>
      match body.session_id with
      | some sid =>
          if sid.truthy then
            let record : SessionEntry := .sobj
              { sessionId := some sid
                title := some (jsOrStr body.paper_title "Unknown Paper")
                paperId := some paperId
                persistentSession := true
                lastUsed := none }
            if wfPut then ⟨none, st, calls⟩
            else ⟨some sid, setBlob st (mapSet m paperId record), calls⟩
          else ⟨none, st, calls⟩
      | none => ⟨none, st, calls⟩
  | .notOk => ⟨none, st, calls⟩
  | .netError => ⟨none, st, calls⟩

/-- `checkExistingChatSession(paperId)` (search.js:1921-2020). A guest gets
null before anything else is touched. Otherwise the blob is parsed with no
try/catch, so an unparseable blob escapes as an exception. Priority 1: if the
stored entry yields a session id, verify it by `GET /api/ai/chat-sessions/:id`;
an ok response returns that id; a non-success status deletes the entry and
persists the deletion (a throwing `setItem`, `wfEvict`, is absorbed by the
same catch as a fetch rejection, leaving storage as it was but the in-memory
map already shrunk); a rejected fetch changes nothing. All non-returning paths
fall through to priority 2. -/
def checkExistingChatSession (st : Storage) (paperId : String)
    (verify : SessId → FetchResult Unit) (lookup : String → FetchResult LookupBody)
    (wfEvict wfPut : Bool) : Except Unit ResolveOut :=
  if isUserLoggedIn st then
    match parseBlob st.chatSessions with
    | .error e => .error e
    | .ok m =>
        match readEntry (mapGet m paperId) with
        | some sid =>
            match verify sid with
            | .ok _ => .ok ⟨some sid, st, [.verifyCall sid]⟩
            | .notOk =>
                let m' := mapDel m paperId
                if wfEvict then
                  .ok (checkExistingPriority2 st m' [.verifyCall sid] paperId lookup wfPut)
                else
                  .ok (checkExistingPriority2 (setBlob st m') m' [.verifyCall sid] paperId lookup wfPut)
            | .netError =>
                .ok (checkExistingPriority2 st m [.verifyCall sid] paperId lookup wfPut)
        | none => .ok (checkExistingPriority2 st m [] paperId lookup wfPut)
  else .ok ⟨none, st, []⟩

/-- The slice of a search-result paper object that `initChatModal` reads. -/
structure Paper where
  authors : Option String
  abstract : Option String
  summary : Option String
  pdf_url : Option String
deriving DecidableEq, Repr

/-- `window.currentPaperContext` as built at search.js:1880-1889: paper id,
title, authors, abstract, pdf url, local-pdf flag, and the persistent
session id picked up from the Local Session Index. -/
structure PaperContext where
  id : String
  title : String
  authors : String
  abstract : String
  pdf_url : Option String
  has_local_pdf : Bool
  chat_session_id : Option SessId
deriving DecidableEq, Repr

/-- `initChatModal(paper, paperId, paperTitle)` (search.js:1846-1919): parse
the blob (no try/catch: an unparseable blob throws), run the session-id
dispatch for the paper, build a fresh context, and decide whether prior
history is loaded (`existingSessionId && isUserLoggedIn()`). Returns the new
context and the load-history flag. -/
def initChatModal (paper : Paper) (paperId paperTitle : String) (st : Storage) :
    Except Unit (PaperContext × Bool) :=
  match parseBlob st.chatSessions with
  | .error e => .error e
  | .ok m =>
      let existing := readEntry (mapGet m paperId)
      let ctx : PaperContext :=
        { id := paperId
          title := paperTitle
          authors := jsOrStr paper.authors ""
          abstract := jsOrStr paper.abstract (jsOrStr paper.summary "")
          pdf_url := jsOrNull paper.pdf_url
          has_local_pdf := false
          chat_session_id := existing }
      .ok (ctx, existing.isSome && isUserLoggedIn st)

/-- What the ask-button handler ends up doing for the conversation view:
either it re-opens an existing remote session by id (`openChatSession`), or it
shows the modal with a freshly built context, with or without a history
load. -/
inductive OpenResult where
  | openedExisting (sid : SessId)
  | openedModal (ctx : PaperContext) (loadHistory : Bool)
deriving DecidableEq, Repr

/-- The ask-button click handler (search.js:1022-1056). `prevCtx` is the
module-level `window.currentPaperContext` in scope at the handler; the source
never reads it here, and the parameter is correspondingly unused: every click
re-runs resolution. Logged in: run `checkExistingChatSession`; a found id goes
to `openChatSession` and the handler stops; otherwise (and for guests,
directly) `initChatModal` builds a fresh context. Exceptions (unparseable
blob) propagate: the handler has no try/catch. -/
def askBtnClick (prevCtx : Option PaperContext) (paper : Paper)
    (paperId paperTitle : String) (st : Storage)
    (verify : SessId → FetchResult Unit) (lookup : String → FetchResult LookupBody) :
    Except Unit (OpenResult × Storage × List RemoteCall) :=
  let _ := prevCtx
  if isUserLoggedIn st then
    match checkExistingChatSession st paperId verify lookup false false with
    | .error e => .error e
    | .ok out =>
        match out.result with
        | some sid => .ok (.openedExisting sid, out.store, out.calls)
        | none =>
            match initChatModal paper paperId paperTitle out.store with
            | .error e => .error e
            | .ok (ctx, lh) => .ok (.openedModal ctx lh, out.store, out.calls)
  else
    match initChatModal paper paperId paperTitle st with
    | .error e => .error e
    | .ok (ctx, lh) => .ok (.openedModal ctx lh, st, [])

/-- One bubble in the conversation view, as appended by `addMessageToChat`. -/
inductive ChatMsg where
  | user (text : String)
  | bot (text : String)
deriving DecidableEq, Repr

/-- The inline message shown when the send fetch rejects (search.js:1417). -/
def errNetMsg : String := "Terjadi kesalahan jaringan. Silakan coba lagi."

/-- The inline message shown on a non-success send status (search.js:1411). -/
def errApiMsg : String := "Maaf, terjadi kesalahan dalam memproses pertanyaan Anda."

/-- Parsed body of a successful `POST /api/ai/question`: the answer text, the
pdf flag, the authoritative session id (possibly absent or falsy), and the
new-session flag. -/
structure AnswerBody where
  answer : String
  used_pdf : Bool
  session_id : Option SessId
  is_new_session : Bool
deriving DecidableEq, Repr

/-- One item of the on-screen chat-history sidebar: the rendered session id,
the latest-question preview, and the shown date. -/
structure SidebarEntry where
  sessionId : SessId
  preview : String
  date : Nat
deriving DecidableEq, Repr

/-- The 40-character preview truncation of `updateChatSessionInSidebar`. -/
def shortPreview (q : String) : String :=
  if q.length > 40 then q.take 40 ++ "..." else q

/-- Remove the first sidebar item with the given session id, as
`querySelector` plus `removeChild` does; none when no item matches. -/
def removeFirst (sid : SessId) : List SidebarEntry → Option (List SidebarEntry)
  | [] => none
  | e :: rest =>
      if e.sessionId = sid then some rest
      else (removeFirst sid rest).map (e :: ·)

/-- `updateChatSessionInSidebar(sessionId, latestQuestion)`
(search.js:2423-2461): find the first sidebar item for the session id; if
present, rewrite its preview (truncated) and date and move it to the head of
the list; if absent, do nothing. -/
def updateChatSessionInSidebar (sid : SessId) (latestQuestion : String) (t : Nat)
    (sb : List SidebarEntry) : List SidebarEntry :=
  match removeFirst sid sb with
  | none => sb
  | some rest => ⟨sid, shortPreview latestQuestion, t⟩ :: rest

/-- Modelled from the spec: `addChatSessionToSidebar` is not among the
provided sources (search.js calls `window.addChatSessionToSidebar`, defined
elsewhere). Per the spec, when `isNewSession` is true "the on-screen session
list gains a new entry at the head" (session-list callback
`onNewSession(sessionId, preview, title)`). -/
def addChatSessionToSidebar (sid : SessId) (question : String) (t : Nat)
    (sb : List SidebarEntry) : List SidebarEntry :=
  ⟨sid, question, t⟩ :: sb

/-- Drop leading whitespace characters from a character list. -/
def dropLeadingWs : List Char → List Char
  | [] => []
  | c :: cs => if c.isWhitespace then dropLeadingWs cs else c :: cs

/-- JavaScript `String.prototype.trim()`: strip whitespace from both ends. -/
def jsTrim (s : String) : String :=
  String.mk (List.reverse (dropLeadingWs (List.reverse (dropLeadingWs s.data))))

/-- The mutable state `sendQuestion` touches: the current context, the
storage, the conversation view, and the sidebar list. -/
structure SendState where
  ctx : Option PaperContext
  store : Storage
  chat : List ChatMsg
  sidebar : List SidebarEntry
deriving DecidableEq, Repr

/-- The record `sendQuestion` writes for the paper on a successful exchange
(search.js:1361-1367): session id, context title and paper id, the persistent
mark, and `lastUsed = new Date().toISOString()` (modelled as the clock `t`). -/
def exchangeRecord (sid : SessId) (c : PaperContext) (t : Nat) : SessionEntry :=
  .sobj
    { sessionId := some sid
      title := some c.title
      paperId := some c.id
      persistentSession := true
      lastUsed := some t }

/-- `sendQuestion()` (search.js:1292-1422). The whole network-and-update
section sits in one try/catch whose handler appends the network-error bubble,
so no exception escapes; each throw site below therefore maps to that
handler inline. Steps: trim the input; bail out (no network) when it is empty
or there is no context; append the user bubble; fetch (`resp` is the oracle
for that one call); on rejection or non-success append the matching error
bubble and change nothing else; on success append the answer bubble, and when
the body carries a truthy `session_id`: set it on the context, parse the blob
(a parse throw lands in the catch with the context already updated), write
the record (a throwing `setItem`, flag `wf`, likewise lands in the catch),
and only after a successful write update the sidebar — a new session prepends
an entry (logged-in only), otherwise the existing entry is refreshed and
moved to the head (logged-in only). Returns the new state and whether the
network was called. -/
def sendQuestion (s : SendState) (rawInput : String) (resp : FetchResult AnswerBody)
    (t : Nat) (wf : Bool) : SendState × Bool :=
  let question := jsTrim rawInput
  match s.ctx with
  | none => (s, false)
  | some c =>
      if question = "" then (s, false)
      else
        let chat1 := s.chat ++ [.user question]
        match resp with
        | .netError => ({ s with chat := chat1 ++ [.bot errNetMsg] }, true)
        | .notOk => ({ s with chat := chat1 ++ [.bot errApiMsg] }, true)
        | .ok body =>
            let chat2 := chat1 ++ [.bot body.answer]
            match body.session_id with
            | some sid =>
                if sid.truthy then
                  let ctx' := { c with chat_session_id := some sid }
                  match parseBlob s.store.chatSessions with
                  | .error _ =>
                      ({ ctx := some ctx', store := s.store
                         chat := chat2 ++ [.bot errNetMsg], sidebar := s.sidebar }, true)
                  | .ok m =>
                      if wf then
                        ({ ctx := some ctx', store := s.store
                           chat := chat2 ++ [.bot errNetMsg], sidebar := s.sidebar }, true)
                      else
                        let store' := setBlob s.store (mapSet m c.id (exchangeRecord sid c t))
                        let sidebar' :=
                          if body.is_new_session && isUserLoggedIn s.store then
                            addChatSessionToSidebar sid question t s.sidebar
                          else if isUserLoggedIn s.store then
                            updateChatSessionInSidebar sid question t s.sidebar
                          else s.sidebar
                        ({ ctx := some ctx', store := store'
                           chat := chat2, sidebar := sidebar' }, true)
                else ({ s with chat := chat2 }, true)
            | none => ({ s with chat := chat2 }, true)

/-- The `lastUsed` timestamp stored for a paper, when the blob parses and the
entry is a structured record carrying one. -/
def lastUsedOf (st : Storage) (p : String) : Option Nat :=
  match parseBlob st.chatSessions with
  | .ok m =>
      match mapGet m p with
      | some (.sobj r) => r.lastUsed
      | _ => none
  | .error _ => none

/-- Step 2 of the resolution algorithm as the spec words it (spec 4.2): ask
the Remote Authority for an existing session by paper id; if found, put it
into the Local Session Index and return its id; otherwise return none. This
definition follows the SPEC text and exists to be compared with the
source-derived `checkExistingChatSession`. -/
def resolverSpecStep2 (m : SessionsMap) (paperId : String)
    (lookup : String → FetchResult LookupBody) : Option SessId × SessionsMap :=
  match lookup paperId with
  | .ok body =>
      match body.session_id with
      | some sid =>
          if sid.truthy then
            let record : SessionEntry := .sobj
              { sessionId := some sid
                title := some (jsOrStr body.paper_title "Unknown Paper")
                paperId := some paperId
                persistentSession := true
                lastUsed := none }
            (some sid, mapSet m paperId record)
          else (none, m)
      | none => (none, m)
  | .notOk => (none, m)
  | .netError => (none, m)

/-- The resolution algorithm as the spec words it (spec 4.2), over the
effective map: consult the local index first; if an entry is present, verify
it with fetch-by-session-id; confirmed existence returns that id; a
not-found/expired report evicts the entry and falls through to step 2; a
network failure during verification is treated as not verified and falls
through to step 2 without evicting; no entry goes straight to step 2. -/
def resolverSpec (m : SessionsMap) (paperId : String)
    (verify : SessId → FetchResult Unit) (lookup : String → FetchResult LookupBody) :
    Option SessId × SessionsMap :=
  match readEntry (mapGet m paperId) with
  | some sid =>
      match verify sid with
      | .ok _ => (some sid, m)
      | .notOk => resolverSpecStep2 (mapDel m paperId) paperId lookup
      | .netError => resolverSpecStep2 m paperId lookup
  | none => resolverSpecStep2 m paperId lookup

/-! Helper lemmas about the association-map operations. -/

theorem mapGet_mapSet_self (m : SessionsMap) (k : String) (v : SessionEntry) :
    mapGet (mapSet m k v) k = some v := by
  induction m with
  | nil => simp [mapGet, mapSet]
  | cons kv rest ih =>
      obtain ⟨k', v'⟩ := kv
      by_cases h : k' = k
      · simp [mapGet, mapSet, h, List.find?]
      · simpa [mapGet, mapSet, h, List.find?] using ih

theorem mapGet_mapSet_ne (m : SessionsMap) (k k' : String) (v : SessionEntry)
    (h : k' ≠ k) : mapGet (mapSet m k v) k' = mapGet m k' := by
  induction m with
  | nil => simp [mapGet, mapSet, List.find?, Ne.symm h]
  | cons kv rest ih =>
      obtain ⟨k₀, v₀⟩ := kv
      by_cases h₀ : k₀ = k
      · subst h₀
        simp [mapGet, mapSet, List.find?, Ne.symm h]
      · by_cases h₁ : k₀ = k'
        · subst h₁
          simp [mapGet, mapSet, h₀, List.find?]
        · simp only [mapGet, mapSet, h₀, if_neg h₀, List.find?] at ih ⊢
          simpa [h₁] using ih

theorem mapGet_mapDel_self (m : SessionsMap) (k : String) :
    mapGet (mapDel m k) k = none := by
  induction m with
  | nil => simp [mapGet, mapDel]
  | cons kv rest ih =>
      obtain ⟨k₀, v₀⟩ := kv
      by_cases h : k₀ = k
      · simp only [mapGet, mapDel] at ih ⊢
        simp [h, ih]
      · simp only [mapGet, mapDel] at ih ⊢
        simp [h, List.find?, ih]

/-- C4: for every input string that is empty or consists only of whitespace,
sending it performs no network call and leaves the ConversationContext, the
Local Session Index, the conversation view and the sidebar exactly as they
were: the send operation returns immediately after trimming the input. -/
theorem sendQuestion_empty_input_noop (s : SendState) (rawInput : String)
    (resp : FetchResult AnswerBody) (t : Nat) (wf : Bool)
    (h : jsTrim rawInput = "") :
    sendQuestion s rawInput resp t wf = (s, false) := by
  unfold sendQuestion
  cases hc : s.ctx with
  | none => simp
  | some c => simp [h]

/-- Witness for `sendQuestion_empty_input_noop` at a whitespace-only input. -/
theorem sendQuestion_empty_input_noop_witness :
    jsTrim "  " = "" ∧
      sendQuestion ⟨some ⟨"p1", "T", "", "", none, false, none⟩, ⟨none, none⟩, [], []⟩
          "  " (.ok ⟨"ans", false, some (.str "S1"), true⟩) 3 false
        = (⟨some ⟨"p1", "T", "", "", none, false, none⟩, ⟨none, none⟩, [], []⟩, false) :=
  ⟨by decide, sendQuestion_empty_input_noop _ _ _ _ _ (by decide)⟩

/-- C2: for every message exchange that fails (network error or non-success
status), an inline failure bubble is appended to the conversation view, and
the ConversationContext, the Local Session Index storage and the sidebar are
left exactly as they were before the send. -/
theorem sendQuestion_failure_no_mutation (s : SendState) (rawInput : String)
    (resp : FetchResult AnswerBody) (t : Nat) (wf : Bool) (c : PaperContext)
    (hc : s.ctx = some c) (hq : jsTrim rawInput ≠ "")
    (hf : resp = .notOk ∨ resp = .netError) :
    (sendQuestion s rawInput resp t wf).1.ctx = s.ctx ∧
    (sendQuestion s rawInput resp t wf).1.store = s.store ∧
    (sendQuestion s rawInput resp t wf).1.sidebar = s.sidebar ∧
    (sendQuestion s rawInput resp t wf).1.chat
      = s.chat ++ [.user (jsTrim rawInput),
          .bot (if resp = FetchResult.notOk then errApiMsg else errNetMsg)] := by
  rcases hf with hf | hf <;> subst hf <;>
    simp [sendQuestion, hc, hq]

/-- Witness for `sendQuestion_failure_no_mutation` at a concrete failed send. -/
theorem sendQuestion_failure_no_mutation_witness :
    (⟨some ⟨"p1", "T", "", "", none, false, none⟩, ⟨some "tok", none⟩, [], []⟩ : SendState).ctx
        = some ⟨"p1", "T", "", "", none, false, none⟩ ∧
    jsTrim "Hi?" ≠ "" ∧
    ((FetchResult.netError : FetchResult AnswerBody) = .notOk ∨
      (FetchResult.netError : FetchResult AnswerBody) = .netError) ∧
    ((sendQuestion ⟨some ⟨"p1", "T", "", "", none, false, none⟩, ⟨some "tok", none⟩, [], []⟩
        "Hi?" .netError 7 false).1.ctx
      = (⟨some ⟨"p1", "T", "", "", none, false, none⟩, ⟨some "tok", none⟩, [], []⟩ : SendState).ctx ∧
     (sendQuestion ⟨some ⟨"p1", "T", "", "", none, false, none⟩, ⟨some "tok", none⟩, [], []⟩
        "Hi?" .netError 7 false).1.store = ⟨some "tok", none⟩ ∧
     (sendQuestion ⟨some ⟨"p1", "T", "", "", none, false, none⟩, ⟨some "tok", none⟩, [], []⟩
        "Hi?" .netError 7 false).1.sidebar = [] ∧
     (sendQuestion ⟨some ⟨"p1", "T", "", "", none, false, none⟩, ⟨some "tok", none⟩, [], []⟩
        "Hi?" .netError 7 false).1.chat
       = [] ++ [.user (jsTrim "Hi?"),
           .bot (if (FetchResult.netError : FetchResult AnswerBody) = FetchResult.notOk
                 then errApiMsg else errNetMsg)]) :=
  ⟨rfl, by decide, Or.inr rfl,
    sendQuestion_failure_no_mutation _ _ _ _ _ _ rfl (by decide) (Or.inr rfl)⟩

/-- C5 counterexample: with an unparseable stored blob, the Local Session
Index read raises instead of yielding none, and for a logged-in user the
resolver call propagates that exception instead of returning. -/
theorem lsiGet_unparseable_blob_fails :
    lsiGet ⟨some "tok", some (.unparsable "not json")⟩ "p1" = .error () ∧
    checkExistingChatSession ⟨some "tok", some (.unparsable "not json")⟩ "p1"
      (fun _ => .netError) (fun _ => .netError) false false = .error () := by
  constructor
  · rfl
  · rfl

/-- C5 amended: for every stored state whose blob parses, reading an entry
never fails: a missing entry yields none, and a malformed entry (a boolean,
a null, or a record without a session id) is treated as a cache miss
yielding none rather than raising an error. -/
theorem lsiGet_parseable_never_fails (st : Storage) (p : String) (m : SessionsMap)
    (hm : storeMap st = .ok m) :
    lsiGet st p = .ok (readEntry (mapGet m p)) ∧
    (mapGet m p = none → lsiGet st p = .ok none) ∧
    (∀ b, mapGet m p = some (.sbool b) → lsiGet st p = .ok none) ∧
    (mapGet m p = some .snull → lsiGet st p = .ok none) ∧
    (∀ r, mapGet m p = some (.sobj r) → r.sessionId = none → lsiGet st p = .ok none) := by
  have hbase : lsiGet st p = .ok (readEntry (mapGet m p)) := by
    unfold lsiGet
    rw [hm]
    rfl
  refine ⟨hbase, ?_, ?_, ?_, ?_⟩
  · intro h; rw [hbase, h]; rfl
  · intro b h; rw [hbase, h]
    cases b <;> rfl
  · intro h; rw [hbase, h]; rfl
  · intro r h hr; rw [hbase, h]
    simp [readEntry, entrySessionId, hr, SessionEntry.truthy]

/-- Witness for `lsiGet_parseable_never_fails` on a map holding a malformed
boolean entry. -/
theorem lsiGet_parseable_never_fails_witness :
    storeMap ⟨some "tok", some (.parsable [("p1", .sbool true)])⟩
        = .ok [("p1", .sbool true)] ∧
    lsiGet ⟨some "tok", some (.parsable [("p1", .sbool true)])⟩ "p1" = .ok none :=
  ⟨rfl, by
    have h := lsiGet_parseable_never_fails
      ⟨some "tok", some (.parsable [("p1", .sbool true)])⟩ "p1"
      [("p1", .sbool true)] rfl
    exact h.2.2.1 true (by decide)⟩

theorem storeMap_setBlob (st : Storage) (m : SessionsMap) :
    storeMap (setBlob st m) = .ok m := rfl

theorem checkExistingPriority2_matches_step2 (st : Storage) (m : SessionsMap)
    (pre : List RemoteCall) (paperId : String)
    (lookup : String → FetchResult LookupBody) (hm : storeMap st = .ok m) :
    (checkExistingPriority2 st m pre paperId lookup false).result
        = (resolverSpecStep2 m paperId lookup).1 ∧
    storeMap (checkExistingPriority2 st m pre paperId lookup false).store
        = .ok (resolverSpecStep2 m paperId lookup).2 := by
  unfold checkExistingPriority2 resolverSpecStep2
  cases hlk : lookup paperId with
  | ok body =>
      simp only [hlk]
      cases hsid : body.session_id with
      | some sid =>
          simp only [hsid]
          by_cases ht : sid.truthy = true
          · simp [ht, storeMap_setBlob]
          · simp [ht, hm]
      | none => exact ⟨rfl, hm⟩
  | notOk => exact ⟨rfl, hm⟩
  | netError => exact ⟨rfl, hm⟩

/-- C1: for a logged-in user and a parseable Local Session Index, session
resolution refines the resolver of the spec: consult the local index first
and verify a present entry with fetch-by-session-id; a not-found/expired
report evicts the stale entry before any new session id is cached for the
paper; resolution then falls through to fetch-by-paper-id, whose found result
is put into the local index and returned; when nothing is found, or a network
failure occurs at either remote step, resolution returns none instead of
crashing. -/
theorem checkExistingChatSession_refines_resolverSpec (st : Storage)
    (paperId : String) (verify : SessId → FetchResult Unit)
    (lookup : String → FetchResult LookupBody) (m : SessionsMap)
    (hl : isUserLoggedIn st = true) (hm : storeMap st = .ok m) :
    (checkExistingChatSession st paperId verify lookup false false).map
        (fun out => (out.result, storeMap out.store))
      = .ok ((resolverSpec m paperId verify lookup).1,
             .ok (resolverSpec m paperId verify lookup).2) := by
  have hm' : parseBlob st.chatSessions = .ok m := hm
  unfold checkExistingChatSession resolverSpec
  rw [hl, hm']
  simp only [if_true]
  cases hr : readEntry (mapGet m paperId) with
  | some sid =>
      simp only [hr]
      cases hv : verify sid with
      | ok u =>
          simp [hv, Except.map, hm]
      | notOk =>
          simp only [hv, Except.map]
          have h := checkExistingPriority2_matches_step2
            (setBlob st (mapDel m paperId)) (mapDel m paperId)
            [.verifyCall sid] paperId lookup (storeMap_setBlob st (mapDel m paperId))
          simp [h.1, h.2]
      | netError =>
          have h := checkExistingPriority2_matches_step2 st m
            [.verifyCall sid] paperId lookup hm
          simp [hv, Except.map, h.1, h.2]
  | none =>
      simp only [hr]
      have h := checkExistingPriority2_matches_step2 st m [] paperId lookup hm
      simp [Except.map, h.1, h.2]

/-- Witness for `checkExistingChatSession_refines_resolverSpec`: a logged-in
user with a cached session the server reports expired, while the paper-id
lookup finds a different session. -/
theorem checkExistingChatSession_refines_resolverSpec_witness :
    isUserLoggedIn ⟨some "tok", some (.parsable [("p3", .sstr "S3")])⟩ = true ∧
    storeMap ⟨some "tok", some (.parsable [("p3", .sstr "S3")])⟩
        = .ok [("p3", .sstr "S3")] ∧
    (checkExistingChatSession ⟨some "tok", some (.parsable [("p3", .sstr "S3")])⟩
        "p3" (fun _ => .notOk)
        (fun _ => .ok ⟨some (.str "S4"), some "Paper three"⟩) false false).map
        (fun out => (out.result, storeMap out.store))
      = .ok ((resolverSpec [("p3", .sstr "S3")] "p3" (fun _ => .notOk)
                (fun _ => .ok ⟨some (.str "S4"), some "Paper three"⟩)).1,
             .ok (resolverSpec [("p3", .sstr "S3")] "p3" (fun _ => .notOk)
                (fun _ => .ok ⟨some (.str "S4"), some "Paper three"⟩)).2) :=
  ⟨rfl, rfl,
    checkExistingChatSession_refines_resolverSpec _ "p3" _ _ _ rfl rfl⟩

/-- C10: during resolution, any non-success response from the
fetch-by-session-id verification (the code only tests `response.ok`, so a
server error status behaves like an explicit not-found report) evicts the
cached entry for the paper, while a thrown network error leaves the entry in
place and still falls through to the paper-id lookup. Observed with a failing
paper-id lookup so the final state isolates the verification effect. -/
theorem verify_nonsuccess_evicts_netError_keeps (st : Storage) (p : String)
    (verify : SessId → FetchResult Unit) (lookup : String → FetchResult LookupBody)
    (m : SessionsMap) (sid : SessId)
    (hl : isUserLoggedIn st = true) (hm : storeMap st = .ok m)
    (hsid : readEntry (mapGet m p) = some sid)
    (hlf : lookup p = .notOk ∨ lookup p = .netError) :
    (verify sid = .notOk →
      ∃ out, checkExistingChatSession st p verify lookup false false = .ok out ∧
        storeMap out.store = .ok (mapDel m p) ∧
        mapGet (mapDel m p) p = none ∧ out.result = none) ∧
    (verify sid = .netError →
      ∃ out, checkExistingChatSession st p verify lookup false false = .ok out ∧
        storeMap out.store = .ok m ∧ out.result = none ∧
        RemoteCall.lookupCall p ∈ out.calls) := by
  have hm' : parseBlob st.chatSessions = .ok m := hm
  constructor
  · intro hv
    refine ⟨checkExistingPriority2 (setBlob st (mapDel m p)) (mapDel m p)
        [.verifyCall sid] p lookup false, ?_, ?_, mapGet_mapDel_self m p, ?_⟩
    · unfold checkExistingChatSession
      rw [hl, hm']
      simp [hsid, hv]
    · rcases hlf with h | h <;>
        simp [checkExistingPriority2, h, storeMap_setBlob]
    · rcases hlf with h | h <;>
        simp [checkExistingPriority2, h]
  · intro hv
    refine ⟨checkExistingPriority2 st m [.verifyCall sid] p lookup false,
        ?_, ?_, ?_, ?_⟩
    · unfold checkExistingChatSession
      rw [hl, hm']
      simp [hsid, hv]
    · rcases hlf with h | h <;>
        simp [checkExistingPriority2, h, hm]
    · rcases hlf with h | h <;>
        simp [checkExistingPriority2, h]
    · rcases hlf with h | h <;>
        simp [checkExistingPriority2, h]

/-- Witness for `verify_nonsuccess_evicts_netError_keeps`: a cached session
whose verification returns a non-success status while the paper-id lookup
rejects. -/
theorem verify_nonsuccess_evicts_netError_keeps_witness :
    isUserLoggedIn ⟨some "tok", some (.parsable [("p1", .sstr "S1")])⟩ = true ∧
    storeMap ⟨some "tok", some (.parsable [("p1", .sstr "S1")])⟩
        = .ok [("p1", .sstr "S1")] ∧
    readEntry (mapGet [("p1", .sstr "S1")] "p1") = some (.str "S1") ∧
    ((fun _ : String => (FetchResult.netError : FetchResult LookupBody)) "p1" = .notOk ∨
     (fun _ : String => (FetchResult.netError : FetchResult LookupBody)) "p1" = .netError) ∧
    (∃ out, checkExistingChatSession ⟨some "tok", some (.parsable [("p1", .sstr "S1")])⟩
        "p1" (fun _ => .notOk) (fun _ => .netError) false false = .ok out ∧
        storeMap out.store = .ok (mapDel [("p1", .sstr "S1")] "p1") ∧
        mapGet (mapDel [("p1", .sstr "S1")] "p1") "p1" = none ∧ out.result = none) :=
  ⟨rfl, rfl, rfl, Or.inr rfl,
    (verify_nonsuccess_evicts_netError_keeps
      ⟨some "tok", some (.parsable [("p1", .sstr "S1")])⟩ "p1"
      (fun _ => .notOk) (fun _ => .netError) [("p1", .sstr "S1")] (.str "S1")
      rfl rfl rfl (Or.inr rfl)).1 rfl⟩

/-- C7: a failing storage write into the Local Session Index is absorbed
silently. For the resolver, with a parseable blob, both write sites
(eviction persist and paper-id put) may throw and the call still returns
normally for any combination of write-failure flags. For the send path, with
a failing write the exchange still completes without an escaping exception:
the in-memory ConversationContext carries the authoritative session id while
the stored index is left as it was, so the context remains the source of
truth for the current view. -/
theorem storage_write_failure_absorbed :
    (∀ (st : Storage) (p : String) (verify : SessId → FetchResult Unit)
        (lookup : String → FetchResult LookupBody) (m : SessionsMap)
        (w1 w2 : Bool), storeMap st = .ok m →
      ∃ out, checkExistingChatSession st p verify lookup w1 w2 = .ok out) ∧
    (∀ (s : SendState) (rawInput : String) (t : Nat) (c : PaperContext)
        (body : AnswerBody) (sid : SessId),
      s.ctx = some c → jsTrim rawInput ≠ "" →
      body.session_id = some sid → sid.truthy = true →
      (sendQuestion s rawInput (.ok body) t true).1.ctx
          = some { c with chat_session_id := some sid } ∧
      (sendQuestion s rawInput (.ok body) t true).1.store = s.store) := by
  constructor
  · intro st p verify lookup m w1 w2 hm
    have hm' : parseBlob st.chatSessions = .ok m := hm
    unfold checkExistingChatSession
    by_cases hl : isUserLoggedIn st = true
    · rw [hl, hm']
      simp only [if_true]
      split
      all_goals try exact ⟨_, rfl⟩
      all_goals split
      all_goals try exact ⟨_, rfl⟩
      all_goals split
      all_goals exact ⟨_, rfl⟩
    · rw [Bool.not_eq_true] at hl
      rw [hl]
      exact ⟨_, rfl⟩
  · intro s rawInput t c body sid hc hq hsid ht
    unfold sendQuestion
    rw [hc]
    simp only [hq, if_neg hq, hsid, ht, if_true]
    cases parseBlob s.store.chatSessions <;> simp

/-- Witness for `storage_write_failure_absorbed`: the resolver with both
writes failing, and a send whose index write fails. -/
theorem storage_write_failure_absorbed_witness :
    storeMap ⟨some "tok", some (.parsable [("p1", .sstr "S1")])⟩
        = .ok [("p1", .sstr "S1")] ∧
    (∃ out, checkExistingChatSession ⟨some "tok", some (.parsable [("p1", .sstr "S1")])⟩
        "p1" (fun _ => .notOk) (fun _ => .ok ⟨some (.str "S2"), none⟩)
        true true = .ok out) ∧
    (sendQuestion ⟨some ⟨"p1", "T", "", "", none, false, none⟩,
        ⟨some "tok", some (.parsable [])⟩, [], []⟩
        "Why?" (.ok ⟨"ans", false, some (.str "S9"), true⟩) 4 true).1.ctx
      = some ⟨"p1", "T", "", "", none, false, some (.str "S9")⟩ ∧
    (sendQuestion ⟨some ⟨"p1", "T", "", "", none, false, none⟩,
        ⟨some "tok", some (.parsable [])⟩, [], []⟩
        "Why?" (.ok ⟨"ans", false, some (.str "S9"), true⟩) 4 true).1.store
      = ⟨some "tok", some (.parsable [])⟩ := by
  refine ⟨rfl, ?_, ?_⟩
  · exact storage_write_failure_absorbed.1
      ⟨some "tok", some (.parsable [("p1", .sstr "S1")])⟩ "p1"
      (fun _ => .notOk) (fun _ => .ok ⟨some (.str "S2"), none⟩)
      [("p1", .sstr "S1")] true true rfl
  · exact storage_write_failure_absorbed.2
      ⟨some ⟨"p1", "T", "", "", none, false, none⟩,
        ⟨some "tok", some (.parsable [])⟩, [], []⟩
      "Why?" 4 ⟨"p1", "T", "", "", none, false, none⟩
      ⟨"ans", false, some (.str "S9"), true⟩ (.str "S9")
      rfl (by decide) rfl rfl

/-- C9: for a user who is not logged in, session resolution returns none
immediately — no remote call is issued, storage is untouched, and not even
the stored blob is read (the call returns normally even on an unparseable
blob); the conversation view never loads prior history as a guest; yet a
successful message exchange writes the returned session id into the Local
Session Index under the paper id by the same formula for any login state, so
guest writes are exactly those of a logged-in user. -/
theorem guest_mode_resolution_and_write :
    (∀ (st : Storage) (p : String) (verify : SessId → FetchResult Unit)
        (lookup : String → FetchResult LookupBody) (w1 w2 : Bool),
      isUserLoggedIn st = false →
      checkExistingChatSession st p verify lookup w1 w2 = .ok ⟨none, st, []⟩) ∧
    (∀ (paper : Paper) (pid ptitle : String) (st : Storage)
        (ctx : PaperContext) (lh : Bool),
      isUserLoggedIn st = false →
      initChatModal paper pid ptitle st = .ok (ctx, lh) → lh = false) ∧
    (∀ (s : SendState) (rawInput : String) (t : Nat) (c : PaperContext)
        (body : AnswerBody) (sid : SessId) (m : SessionsMap),
      s.ctx = some c → jsTrim rawInput ≠ "" →
      body.session_id = some sid → sid.truthy = true →
      storeMap s.store = .ok m →
      (sendQuestion s rawInput (.ok body) t false).1.store
        = setBlob s.store (mapSet m c.id (exchangeRecord sid c t))) := by
  refine ⟨?_, ?_, ?_⟩
  · intro st p verify lookup w1 w2 hl
    unfold checkExistingChatSession
    rw [hl]
    rfl
  · intro paper pid ptitle st ctx lh hl hinit
    unfold initChatModal at hinit
    cases hpb : parseBlob st.chatSessions with
    | error e => rw [hpb] at hinit; cases hinit
    | ok m =>
        rw [hpb] at hinit
        simp only [Except.ok.injEq, Prod.mk.injEq] at hinit
        rw [← hinit.2, hl, Bool.and_false]
  · intro s rawInput t c body sid m hc hq hsid ht hm
    have hm' : parseBlob s.store.chatSessions = .ok m := hm
    unfold sendQuestion
    rw [hc]
    simp only [hq, if_neg hq, hsid, ht, if_true, hm']
    cases body.is_new_session && isUserLoggedIn s.store <;>
      cases isUserLoggedIn s.store <;> simp

/-- Witness for `guest_mode_resolution_and_write`: a guest with an
unparseable blob still resolves to none untouched, and a guest exchange
writes the record. -/
theorem guest_mode_resolution_and_write_witness :
    isUserLoggedIn ⟨none, some (.unparsable "junk")⟩ = false ∧
    checkExistingChatSession ⟨none, some (.unparsable "junk")⟩ "p1"
        (fun _ => .netError) (fun _ => .netError) false false
      = .ok ⟨none, ⟨none, some (.unparsable "junk")⟩, []⟩ ∧
    (sendQuestion ⟨some ⟨"p1", "T", "", "", none, false, none⟩, ⟨none, some (.parsable [])⟩, [], []⟩
        "What is the method?" (.ok ⟨"ans", false, some (.str "S1"), true⟩) 2 false).1.store
      = setBlob ⟨none, some (.parsable [])⟩
          (mapSet [] "p1" (exchangeRecord (.str "S1") ⟨"p1", "T", "", "", none, false, none⟩ 2)) :=
  ⟨rfl,
    guest_mode_resolution_and_write.1 ⟨none, some (.unparsable "junk")⟩ "p1"
      (fun _ => .netError) (fun _ => .netError) false false rfl,
    guest_mode_resolution_and_write.2.2
      ⟨some ⟨"p1", "T", "", "", none, false, none⟩, ⟨none, some (.parsable [])⟩, [], []⟩
      "What is the method?" 2 ⟨"p1", "T", "", "", none, false, none⟩
      ⟨"ans", false, some (.str "S1"), true⟩ (.str "S1") []
      rfl (by decide) rfl rfl rfl⟩

theorem sendQuestion_store_cases (s : SendState) (rawInput : String)
    (resp : FetchResult AnswerBody) (t : Nat) (wf : Bool) :
    (sendQuestion s rawInput resp t wf).1.store = s.store ∨
    (∃ c sid m body, s.ctx = some c ∧ parseBlob s.store.chatSessions = .ok m ∧
      resp = .ok body ∧ body.session_id = some sid ∧ sid.truthy = true ∧ wf = false ∧
      (sendQuestion s rawInput resp t wf).1.store
        = setBlob s.store (mapSet m c.id (exchangeRecord sid c t))) := by
  unfold sendQuestion
  cases hc : s.ctx with
  | none => left; rfl
  | some c =>
      by_cases hq : jsTrim rawInput = ""
      · left; simp [hq]
      · simp only [if_neg hq]
        cases resp with
        | netError => left; rfl
        | notOk => left; rfl
        | ok body =>
            cases hsid : body.session_id with
            | none => left; simp [hsid]
            | some sid =>
                simp only [hsid]
                by_cases ht : sid.truthy = true
                · simp only [ht, if_true]
                  cases hpb : parseBlob s.store.chatSessions with
                  | error e => left; simp [hpb]
                  | ok m =>
                      simp only [hpb]
                      cases wf with
                      | true => left; rfl
                      | false =>
                          right
                          exact ⟨c, sid, m, body, rfl, rfl, rfl, hsid, ht, rfl, by simp⟩
                · left; simp [ht]

/-- C8: across any message exchange whose clock does not run behind the
timestamps already stored, the lastUsed timestamp recorded for a paper in the
Local Session Index is non-decreasing: a successful exchange overwrites the
record with the current time and every other outcome leaves it unchanged. -/
theorem lastUsedAt_nondecreasing (s : SendState) (rawInput : String)
    (resp : FetchResult AnswerBody) (t : Nat) (wf : Bool) (p : String)
    (hclock : ∀ u, lastUsedOf s.store p = some u → u ≤ t) :
    ∀ t₀ t₁, lastUsedOf s.store p = some t₀ →
      lastUsedOf (sendQuestion s rawInput resp t wf).1.store p = some t₁ →
      t₀ ≤ t₁ := by
  intro t₀ t₁ h₀ h₁
  rcases sendQuestion_store_cases s rawInput resp t wf with heq |
    ⟨c, sid, m, body, hc, hpb, hresp, hsid, ht, hwf, heq⟩
  · rw [heq, h₀] at h₁
    exact le_of_eq (Option.some.inj h₁)
  · rw [heq] at h₁
    by_cases hp : p = c.id
    · subst hp
      have hl : lastUsedOf (setBlob s.store (mapSet m c.id (exchangeRecord sid c t))) c.id
          = some t := by
        unfold lastUsedOf
        have hg : mapGet (mapSet m c.id (exchangeRecord sid c t)) c.id
            = some (exchangeRecord sid c t) := mapGet_mapSet_self m c.id _
        simp only [setBlob, parseBlob]
        rw [hg]
        rfl
      rw [hl] at h₁
      rw [← Option.some.inj h₁]
      exact hclock t₀ h₀
    · have hget : mapGet (mapSet m c.id (exchangeRecord sid c t)) p = mapGet m p :=
        mapGet_mapSet_ne m c.id p _ hp
      have hsame : lastUsedOf (setBlob s.store (mapSet m c.id (exchangeRecord sid c t))) p
          = lastUsedOf s.store p := by
        unfold lastUsedOf
        rw [hpb]
        have h1 : parseBlob (setBlob s.store (mapSet m c.id (exchangeRecord sid c t))).chatSessions
            = .ok (mapSet m c.id (exchangeRecord sid c t)) := rfl
        simp only [h1, hget]
      rw [hsame, h₀] at h₁
      exact le_of_eq (Option.some.inj h₁)

/-- Witness for `lastUsedAt_nondecreasing`: an exchange at time 5 over a
record stored at time 1. -/
theorem lastUsedAt_nondecreasing_witness :
    lastUsedOf ⟨some "tok", some (.parsable
        [("p1", .sobj ⟨some (.str "S1"), some "T", some "p1", true, some 1⟩)])⟩ "p1"
      = some 1 ∧
    lastUsedOf (sendQuestion
        ⟨some ⟨"p1", "T", "", "", none, false, some (.str "S1")⟩,
         ⟨some "tok", some (.parsable
           [("p1", .sobj ⟨some (.str "S1"), some "T", some "p1", true, some 1⟩)])⟩, [], []⟩
        "Again?" (.ok ⟨"ans", false, some (.str "S1"), false⟩) 5 false).1.store "p1"
      = some 5 ∧
    (1 : Nat) ≤ 5 := by
  refine ⟨rfl, by decide, ?_⟩
  exact lastUsedAt_nondecreasing
    ⟨some ⟨"p1", "T", "", "", none, false, some (.str "S1")⟩,
     ⟨some "tok", some (.parsable
       [("p1", .sobj ⟨some (.str "S1"), some "T", some "p1", true, some 1⟩)])⟩, [], []⟩
    "Again?" (.ok ⟨"ans", false, some (.str "S1"), false⟩) 5 false "p1"
    (fun u h => by
      have h2 : (some 1 : Option Nat) = some u := h
      have h3 := Option.some.inj h2
      omega)
    1 5 rfl (by decide)

/-- C3 counterexample: a successful guest exchange with isNewSession true.
The exchange completes — the returned session id is applied to the context
and written to the Local Session Index — yet the on-screen session list stays
empty, so no new entry appears at its head. -/
theorem new_session_sidebar_guest_counterexample :
    (sendQuestion ⟨some ⟨"p1", "T", "", "", none, false, none⟩,
        ⟨none, some (.parsable [])⟩, [], []⟩
        "What?" (.ok ⟨"ans", false, some (.str "S1"), true⟩) 5 false).1.sidebar = [] ∧
    (sendQuestion ⟨some ⟨"p1", "T", "", "", none, false, none⟩,
        ⟨none, some (.parsable [])⟩, [], []⟩
        "What?" (.ok ⟨"ans", false, some (.str "S1"), true⟩) 5 false).1.ctx
      = some ⟨"p1", "T", "", "", none, false, some (.str "S1")⟩ ∧
    (sendQuestion ⟨some ⟨"p1", "T", "", "", none, false, none⟩,
        ⟨none, some (.parsable [])⟩, [], []⟩
        "What?" (.ok ⟨"ans", false, some (.str "S1"), true⟩) 5 false).1.store
      ≠ ⟨none, some (.parsable [])⟩ := by
  refine ⟨rfl, rfl, ?_⟩
  intro h
  cases h

theorem removeFirst_countP (sid : SessId) (sb rest : List SidebarEntry)
    (h : removeFirst sid sb = some rest) :
    sb.countP (fun e => e.sessionId == sid)
      = rest.countP (fun e => e.sessionId == sid) + 1 := by
  induction sb generalizing rest with
  | nil => simp [removeFirst] at h
  | cons e es ih =>
      by_cases he : e.sessionId = sid
      · simp only [removeFirst, if_pos he] at h
        cases h
        simp [List.countP_cons, he]
      · simp only [removeFirst, if_neg he, Option.map_eq_some'] at h
        obtain ⟨rest', hr', hrest⟩ := h
        subst hrest
        simp [List.countP_cons, he, ih rest' hr']

theorem updateChatSessionInSidebar_countP (sid : SessId) (q : String) (t : Nat)
    (sb : List SidebarEntry) :
    (updateChatSessionInSidebar sid q t sb).countP (fun e => e.sessionId == sid)
      = sb.countP (fun e => e.sessionId == sid) := by
  unfold updateChatSessionInSidebar
  cases h : removeFirst sid sb with
  | none => rfl
  | some rest => simp [List.countP_cons, removeFirst_countP sid sb rest h]

/-- C3 amended: for a successful exchange by a LOGGED-IN user, over a
parseable index whose write succeeds: when isNewSession is true, exactly one
new entry for the returned session id is prepended at the head of the
on-screen session list; when isNewSession is false, the sidebar is rewritten
by the update routine — the number of entries for that session id is
preserved (no duplicate is created), and whenever an entry for the session id
is present it is refreshed (latest question preview and timestamp) and moved
to the head of the list. A guest exchange leaves the sidebar untouched (see
the counterexample), so the logged-in hypothesis is required. -/
theorem sidebar_update_on_success (s : SendState) (rawInput : String) (t : Nat)
    (c : PaperContext) (body : AnswerBody) (sid : SessId) (m : SessionsMap)
    (hlogin : isUserLoggedIn s.store = true)
    (hc : s.ctx = some c) (hq : jsTrim rawInput ≠ "")
    (hsid : body.session_id = some sid) (ht : sid.truthy = true)
    (hm : storeMap s.store = .ok m) :
    (body.is_new_session = true →
      (sendQuestion s rawInput (.ok body) t false).1.sidebar
        = ⟨sid, jsTrim rawInput, t⟩ :: s.sidebar) ∧
    (body.is_new_session = false →
      (sendQuestion s rawInput (.ok body) t false).1.sidebar
          = updateChatSessionInSidebar sid (jsTrim rawInput) t s.sidebar ∧
      ((sendQuestion s rawInput (.ok body) t false).1.sidebar).countP
          (fun e => e.sessionId == sid)
        = s.sidebar.countP (fun e => e.sessionId == sid) ∧
      (∀ rest, removeFirst sid s.sidebar = some rest →
        (sendQuestion s rawInput (.ok body) t false).1.sidebar
          = ⟨sid, shortPreview (jsTrim rawInput), t⟩ :: rest)) := by
  have hm' : parseBlob s.store.chatSessions = .ok m := hm
  constructor
  · intro hnew
    unfold sendQuestion
    rw [hc]
    simp [hq, hsid, ht, hm', hnew, hlogin, addChatSessionToSidebar]
  · intro hnew
    have hside : (sendQuestion s rawInput (.ok body) t false).1.sidebar
        = updateChatSessionInSidebar sid (jsTrim rawInput) t s.sidebar := by
      unfold sendQuestion
      rw [hc]
      simp [hq, hsid, ht, hm', hnew, hlogin]
    refine ⟨hside, ?_, ?_⟩
    · rw [hside]
      exact updateChatSessionInSidebar_countP sid (jsTrim rawInput) t s.sidebar
    · intro rest hrest
      rw [hside]
      unfold updateChatSessionInSidebar
      rw [hrest]

/-- Witness for `sidebar_update_on_success`: a logged-in non-new-session
exchange whose sidebar holds one entry for the session, which moves to the
head refreshed. -/
theorem sidebar_update_on_success_witness :
    isUserLoggedIn ⟨some "tok", some (.parsable [])⟩ = true ∧
    jsTrim "Next question" ≠ "" ∧
    (sendQuestion ⟨some ⟨"p1", "T", "", "", none, false, some (.str "S1")⟩,
        ⟨some "tok", some (.parsable [])⟩, [],
        [⟨.str "S0", "other", 1⟩, ⟨.str "S1", "old", 1⟩]⟩
        "Next question" (.ok ⟨"ans", false, some (.str "S1"), false⟩) 9 false).1.sidebar
      = ⟨.str "S1", shortPreview (jsTrim "Next question"), 9⟩ :: [⟨.str "S0", "other", 1⟩] := by
  refine ⟨rfl, by decide, ?_⟩
  exact (sidebar_update_on_success
    ⟨some ⟨"p1", "T", "", "", none, false, some (.str "S1")⟩,
      ⟨some "tok", some (.parsable [])⟩, [],
      [⟨.str "S0", "other", 1⟩, ⟨.str "S1", "old", 1⟩]⟩
    "Next question" 9 ⟨"p1", "T", "", "", none, false, some (.str "S1")⟩
    ⟨"ans", false, some (.str "S1"), false⟩ (.str "S1") []
    rfl rfl (by decide) rfl rfl rfl).2 rfl |>.2.2
    [⟨.str "S0", "other", 1⟩] (by decide)

/-- C6 counterexample: a ConversationContext already ACTIVE for paper p1
(session id set after an exchange) is in scope, yet clicking ask again
re-runs resolution — a remote verification request goes on the wire and the
handler re-opens by session id — instead of reusing the existing context. -/
theorem reentrant_open_counterexample :
    askBtnClick (some ⟨"p1", "T", "", "", none, false, some (.str "S1")⟩)
        ⟨none, none, none, none⟩ "p1" "T"
        ⟨some "tok", some (.parsable [("p1", .sstr "S1")])⟩
        (fun _ => .ok ()) (fun _ => .netError)
      = .ok (.openedExisting (.str "S1"),
             ⟨some "tok", some (.parsable [("p1", .sstr "S1")])⟩,
             [.verifyCall (.str "S1")]) ∧
    ([RemoteCall.verifyCall (.str "S1")] : List RemoteCall) ≠ [] := by
  refine ⟨rfl, ?_⟩
  intro h
  cases h

/-- C6 amended: a re-entrant open never reuses the existing
ConversationContext: the handler ignores whatever context is current (its
outcome is the same for any two contexts in scope), resolution re-runs on
every click, and when the paper has a live cached session the handler
re-opens that session by id, with the verification request issued. -/
theorem reentrant_open_reresolves (prev1 prev2 : Option PaperContext)
    (paper : Paper) (pid ptitle : String) (st : Storage)
    (verify : SessId → FetchResult Unit) (lookup : String → FetchResult LookupBody)
    (m : SessionsMap) (sid : SessId)
    (hl : isUserLoggedIn st = true) (hm : storeMap st = .ok m)
    (hsid : readEntry (mapGet m pid) = some sid) (hv : verify sid = .ok ()) :
    askBtnClick prev1 paper pid ptitle st verify lookup
      = askBtnClick prev2 paper pid ptitle st verify lookup ∧
    askBtnClick prev1 paper pid ptitle st verify lookup
      = .ok (.openedExisting sid, st, [.verifyCall sid]) := by
  have hm' : parseBlob st.chatSessions = .ok m := hm
  constructor
  · rfl
  · unfold askBtnClick checkExistingChatSession
    rw [hl, hm']
    simp [hsid, hv]

/-- Witness for `reentrant_open_reresolves`: two distinct contexts in scope
give the same outcome, which re-opens the verified cached session. -/
theorem reentrant_open_reresolves_witness :
    isUserLoggedIn ⟨some "tok", some (.parsable [("p1", .sstr "S1")])⟩ = true ∧
    readEntry (mapGet [("p1", .sstr "S1")] "p1") = some (.str "S1") ∧
    askBtnClick (some ⟨"p1", "T", "", "", none, false, some (.str "S1")⟩)
        ⟨none, none, none, none⟩ "p1" "T"
        ⟨some "tok", some (.parsable [("p1", .sstr "S1")])⟩
        (fun _ => .ok ()) (fun _ => .notOk)
      = askBtnClick none
        ⟨none, none, none, none⟩ "p1" "T"
        ⟨some "tok", some (.parsable [("p1", .sstr "S1")])⟩
        (fun _ => .ok ()) (fun _ => .notOk) ∧
    askBtnClick (some ⟨"p1", "T", "", "", none, false, some (.str "S1")⟩)
        ⟨none, none, none, none⟩ "p1" "T"
        ⟨some "tok", some (.parsable [("p1", .sstr "S1")])⟩
        (fun _ => .ok ()) (fun _ => .notOk)
      = .ok (.openedExisting (.str "S1"),
             ⟨some "tok", some (.parsable [("p1", .sstr "S1")])⟩,
             [.verifyCall (.str "S1")]) := by
  have h := reentrant_open_reresolves
    (some ⟨"p1", "T", "", "", none, false, some (.str "S1")⟩) none
    ⟨none, none, none, none⟩ "p1" "T"
    ⟨some "tok", some (.parsable [("p1", .sstr "S1")])⟩
    (fun _ => .ok ()) (fun _ => .notOk)
    [("p1", .sstr "S1")] (.str "S1") rfl rfl rfl rfl
  exact ⟨rfl, rfl, h.1, h.2⟩
